import Mathlib

/-!
# inverter-automator: a verified shallow embedding

This file embeds the two Python sources of the `inverter-automator`
repository in Lean and settles the frozen claims about them.

* `App` models `src/app.py`: the always-running DESS Monitor client
  (`DessMonitorAPI`) with login, HMAC-signed command dispatch, and the
  token-invalid retry recursion of `_send_signed_command`.
* `IC` models `src/inverter_control.py`: the one-shot GitHub-Actions
  script, including `make_session`'s urllib3 transport retry policy,
  `_sleep_with_backoff`, and `call_api`'s control/read paths.

Side effects are made explicit: the wall clock is a `Nat` (milliseconds)
argument, the remote server is an oracle function from the index of the
request to its response, `random.uniform(0.5, 1.5)` is an oracle from the
attempt number to a rational jitter factor, `time.sleep` is recorded in a
list, and `sys.exit(1)` / falling off the end of `main` are an `Outcome`
value.  Python's unbounded recursion is given explicit fuel: exhausting
any amount of fuel models non-termination of the recursion.
-/

namespace App

/-- `DessMonitorAPI` device/credential fields, as validated by `__init__`
(`src/app.py` lines 42-54). -/
structure Client where
  username : String
  password : String
  pn : String
  sn : String
  devcode : String
  devaddr : String
deriving Repr, DecidableEq

/-- Python truthiness of an optional string: `None` and `""` are falsy.
`__init__` rejects its arguments with `not all([...])`, which fails on
exactly these values. -/
def falsy : Option String → Bool
  | none => true
  | some s => s == ""

/-- `DessMonitorAPI.__init__`: raises `ValueError` ("All API client
parameters are required.") unless every parameter is truthy; otherwise the
fields are stored verbatim. -/
def clientInit (username password pn sn devcode devaddr : Option String) :
    Except String Client :=
  if falsy username || falsy password || falsy pn || falsy sn ||
      falsy devcode || falsy devaddr then
    .error "All API client parameters are required."
  else
    .ok { username := username.getD "", password := password.getD "",
          pn := pn.getD "", sn := sn.getD "", devcode := devcode.getD "",
          devaddr := devaddr.getD "" }

/-- Whether a `clientInit` call raised. -/
def isError : Except String Client → Bool
  | .error _ => true
  | .ok _ => false

def SOURCE : String := "1"

def CMD_URL : String := "https://web.dessmonitor.com/public/"

/-- The parameter string `_send_signed_command` signs (`src/app.py`
lines 99-105): an f-string in the fixed order
`action, devaddr, devcode, i18n, id, pn, salt, sn, source`, with
`&val=...` appended exactly when `extra_params` carries a `val`. -/
def paramsForSigning (c : Client) (salt action : String)
    (valOpt : Option String) : String :=
  "action=" ++ action ++ "&devaddr=" ++ c.devaddr ++ "&devcode=" ++ c.devcode ++
  "&i18n=en_US&id=los_output_source_priority&pn=" ++ c.pn ++ "&salt=" ++ salt ++
  "&sn=" ++ c.sn ++ "&source=" ++ SOURCE ++
  (match valOpt with
   | some v => "&val=" ++ v
   | none => "")

/-- Render a key-value list as a `k=v&k=v&...` query fragment. -/
def renderKV : List (String × String) → String
  | [] => ""
  | [(k, v)] => k ++ "=" ++ v
  | (k, v) :: p :: rest => k ++ "=" ++ v ++ "&" ++ renderKV (p :: rest)

/-- Spec-side definition, transcribed from claim C4's words: the signed
parameters as an ordered key-value list — `action`, device address,
device code, locale, fixed item id, product number, salt, serial number,
source flag, and, only for mutating commands, the target value. -/
def specSignedPairs (c : Client) (salt action : String)
    (valOpt : Option String) : List (String × String) :=
  [("action", action), ("devaddr", c.devaddr), ("devcode", c.devcode),
   ("i18n", "en_US"), ("id", "los_output_source_priority"), ("pn", c.pn),
   ("salt", salt), ("sn", c.sn), ("source", SOURCE)] ++
  (match valOpt with
   | some v => [("val", v)]
   | none => [])

/-- What a public entry point passes to `_send_signed_command`, plus the
human description it logs. -/
structure Dispatch where
  description : String
  action : String
  extraVal : Option String
deriving Repr, DecidableEq

/-- `DessMonitorAPI.set_output_priority` (`src/app.py` lines 130-134):
describes the job as SOLAR when `mode == '1'` and SBU otherwise, and
dispatches `ctrlDevice` with `val` equal to `mode`, unvalidated. -/
def setOutputPriority (mode : String) : Dispatch :=
  { description := if mode == "1" then "SOLAR" else "SBU"
    action := "ctrlDevice"
    extraVal := some mode }

/-- `DessMonitorAPI.get_status` (`src/app.py` lines 136-139): dispatches
`queryDeviceCtrlValue` with no extra parameters. -/
def getStatus : Dispatch :=
  { description := "Read status"
    action := "queryDeviceCtrlValue"
    extraVal := none }

/-- `salt = str(int(time.time() * 1000))` with the clock (in ms) made an
explicit argument. -/
def mkSalt (nowMs : Nat) : String := toString nowMs

/-- The mutable session state of a `DessMonitorAPI` instance. -/
structure Session where
  token : Option String
  key : Option String
deriving Repr, DecidableEq

/-- The signed request assembled by `_send_signed_command` lines 96-111.
`saltMs` is the clock value the salt was rendered from (model-level
bookkeeping; the wire carries `salt`). -/
structure SignedRequest where
  saltMs : Nat
  salt : String
  params : String
  sign : String
  url : String
deriving Repr, DecidableEq

/-- The pure signing fragment of `_send_signed_command` (`src/app.py`
lines 96-111): take the current clock, render the salt, build the
parameter string, sign it with HMAC-SHA256 under the session `key`, and
assemble the GET URL.  The HMAC itself is the library call
`hmac.new(key, msg, sha256).hexdigest()`, abstracted here as the function
argument `hmacSha256Hex`; `key` and `token` are the session's fields
(both present after the login guard).  The session is returned so the
absence of writes to it is visible in the type. -/
def signStep (hmacSha256Hex : String → String → String) (c : Client)
    (st : Session) (key token : String) (nowMs : Nat) (action : String)
    (valOpt : Option String) : SignedRequest × Session :=
  let salt := mkSalt nowMs
  let params := paramsForSigning c salt action valOpt
  let sign := hmacSha256Hex key params
  ({ saltMs := nowMs, salt := salt, params := params, sign := sign,
     url := CMD_URL ++ "?token=" ++ token ++ "&sign=" ++ sign ++ "&" ++ params },
   st)

/-- A command response as `_send_signed_command` discriminates it: a
network-level failure (`requests.exceptions.RequestException`, which is
also what a non-2xx `raise_for_status` raises) or a JSON body with its
`err` code. -/
inductive CmdResp where
  | netErr
  | json (err : Int)
deriving Repr, DecidableEq

/-- The remote service as oracles: the result of the n-th login attempt
(`some (token, key)` when `err == 0` and both fields are present, i.e.
`login()` returns `True`), and the n-th signed-command response. -/
structure Env where
  loginResult : Nat → Option (String × String)
  cmdResult : Nat → CmdResp

/-- What a `_send_signed_command` invocation can produce: the parsed JSON
(`payload`), `None` (login failure or network error), or — with the
recursion bounded by explicit fuel — failure to terminate within that
fuel. -/
inductive SendResult where
  | payload (err : Int)
  | aborted
  | outOfFuel
deriving Repr, DecidableEq

/-- The login guard at the top of `_send_signed_command` (lines 91-94):
when token or key is absent, `login()` is attempted once; the returned
flag says whether a valid session is now in hand.  The `Nat` is the
updated login-request counter. -/
def ensureLogin (env : Env) (st : Session) (logins : Nat) :
    Session × Nat × Bool :=
  if st.token.isNone || st.key.isNone then
    match env.loginResult logins with
    | none => (st, logins + 1, false)
    | some (t, k) => (⟨some t, some k⟩, logins + 1, true)
  else (st, logins, true)

/-- `_send_signed_command` (`src/app.py` lines 89-128) with its state
threaded explicitly.  Returns the result, the session after the call, and
the updated login/command request counters.  The `err == 10005` branch
clears the token and re-enters the whole function; `fuel` bounds that
recursion (the Python source has no bound). -/
def send (env : Env) : Nat → Session → Nat → Nat →
    SendResult × Session × Nat × Nat
  | fuel, st, logins, cmds =>
    match ensureLogin env st logins with
    | (st', logins', false) => (.aborted, st', logins', cmds)
    | (st', logins', true) =>
      match env.cmdResult cmds with
      | .netErr => (.aborted, st', logins', cmds + 1)
      | .json e =>
        if e = 10005 then
          match fuel with
          | 0 => (.outOfFuel, { st' with token := none }, logins', cmds + 1)
          | fuel' + 1 => send env fuel' { st' with token := none } logins' (cmds + 1)
        else (.payload e, st', logins', cmds + 1)

/-- A remote service whose every signed-command response carries the
token-invalid code 10005 while every login succeeds. -/
def alwaysInvalid : Env :=
  { loginResult := fun _ => some ("tok", "key")
    cmdResult := fun _ => .json 10005 }

end App

namespace IC

/-- An HTTP response body as `call_api` discriminates it: JSON with an
`err` code and `desc`, or a body `response.json()` fails on. -/
inductive Body where
  | jsonBody (err : Int) (desc : String)
  | rawText (s : String)
deriving Repr, DecidableEq

/-- One wire-level exchange: an HTTP response with a status code, or a
connection-level failure. -/
inductive WireResp where
  | status (code : Nat) (body : Body)
  | connErr
deriving Repr, DecidableEq

/-- `status_forcelist=[429, 500, 502, 503, 504]` of `make_session`
(`src/inverter_control.py` line 93). -/
def forceList : List Nat := [429, 500, 502, 503, 504]

/-- What one `session.get` call yields through the adapter: a `Response`
object, or a raised `requests.exceptions.RequestException`. -/
inductive TransportOutcome where
  | resp (code : Nat) (body : Body)
  | exn
deriving Repr, DecidableEq

/-- The urllib3 `Retry(total=2, status_forcelist=[...], allowed_methods=
GET..., raise_on_status=False)` adapter built by `make_session`
(`src/inverter_control.py` lines 85-101), for a GET: a response whose
status is in the forcelist, or a connection error, is retried while
retries remain; on exhaustion a forcelisted response is returned as-is
(`raise_on_status=False`) while a connection error raises.  `server` maps
the index of a wire request to its result; the returned `Nat` is the
index after the exchange, i.e. the number of wire requests made when
started at 0. -/
def sessionGet (server : Nat → WireResp) : Nat → Nat → TransportOutcome × Nat
  | 0, idx =>
    (match server idx with
     | .status c b => (.resp c b, idx + 1)
     | .connErr => (.exn, idx + 1))
  | r + 1, idx =>
    (match server idx with
     | .status c b =>
       if c ∈ forceList then sessionGet server r (idx + 1) else (.resp c b, idx + 1)
     | .connErr => sessionGet server r (idx + 1))

/-- How a `call_api` invocation ends: returning normally (process exit 0)
or `sys.exit(1)`, with the flag recording whether a `::error::` GitHub
annotation was printed on the way out. -/
inductive Outcome where
  | success
  | exit1 (annotated : Bool)
deriving Repr, DecidableEq

/-- The read-status branch of `call_api` (`src/inverter_control.py` lines
205-229): a single `session.get`, then `raise_for_status()` (raises for
4xx/5xx), then JSON parsing, then the API-level `err` check; every
failure prints an annotation and exits 1.  Also returns the number of
wire requests made. -/
def readStatus (server : Nat → WireResp) : Outcome × Nat :=
  match sessionGet server 2 0 with
  | (.exn, n) => (.exit1 true, n)
  | (.resp c b, n) =>
    if 400 ≤ c ∧ c < 600 then (.exit1 true, n)
    else
      match b with
      | .rawText _ => (.exit1 true, n)
      | .jsonBody e _ => if e = 0 then (.success, n) else (.exit1 true, n)

/-- Characterization of when the read path succeeds: the transport
returned a response that survives `raise_for_status` with a JSON body
whose `err` is 0. -/
def readOk : TransportOutcome → Bool
  | .resp c (.jsonBody e _) => if 400 ≤ c ∧ c < 600 then false else e == 0
  | _ => false

/-- The retry tuning knobs of the one-shot script (`MAX_RETRIES`,
`BACKOFF_FACTOR`, `MAX_BACKOFF_SLEEP`), env-overridable with defaults
5, 2.0, 60. -/
structure RetryConfig where
  maxRetries : Nat
  backoffFactor : ℚ
  maxBackoffSleep : ℚ
deriving Repr, DecidableEq

def defaultConfig : RetryConfig :=
  { maxRetries := 5, backoffFactor := 2, maxBackoffSleep := 60 }

/-- `_sleep_with_backoff` (`src/inverter_control.py` lines 104-113):
`min(BACKOFF_FACTOR ** (attempt - 1) * random.uniform(0.5, 1.5),
MAX_BACKOFF_SLEEP)`, with the jitter draw for each attempt supplied by
the oracle `jitter`. -/
def sleepWithBackoff (cfg : RetryConfig) (jitter : Nat → ℚ) (attempt : Nat) : ℚ :=
  min (cfg.backoffFactor ^ (attempt - 1) * jitter attempt) cfg.maxBackoffSleep

/-- Whether one application-level attempt of the control loop succeeds:
`response.ok` (status < 400), a JSON body, and `err == 0`; a raised
`RequestException`, a non-ok status, a non-JSON body, or a non-zero
`err` all take the failure path (lines 145-203). -/
def attemptSucceeds : TransportOutcome → Bool
  | .exn => false
  | .resp c body =>
    if 400 ≤ c then false
    else
      match body with
      | .rawText _ => false
      | .jsonBody e _ => e == 0

/-- The control-command retry loop of `call_api` (`src/inverter_control.py`
lines 143-203), with `fuel` the number of loop iterations left and
`attempt` the 1-indexed attempt counter (`fuel = MAX_RETRIES` and
`attempt = 1` at entry).  `resp` maps the attempt number to that
attempt's transport outcome.  Returns the outcome, the number of attempts
made, and the sleeps performed between attempts, in order.  When
`MAX_RETRIES < 1` the Python for-loop body never runs and `call_api`
falls through, returning normally: that is the `fuel = 0` base case. -/
def runControl (cfg : RetryConfig) (jitter : Nat → ℚ)
    (resp : Nat → TransportOutcome) : Nat → Nat → Outcome × Nat × List ℚ
  | 0, _ => (.success, 0, [])
  | fuel + 1, attempt =>
    if attemptSucceeds (resp attempt) then (.success, 1, [])
    else if attempt = cfg.maxRetries then (.exit1 true, 1, [])
    else
      match runControl cfg jitter resp fuel (attempt + 1) with
      | (o, n, sl) => (o, n + 1, sleepWithBackoff cfg jitter attempt :: sl)

/-- A full control-command invocation: the loop entered with `attempt = 1`
and `MAX_RETRIES` iterations available. -/
def controlCommand (cfg : RetryConfig) (jitter : Nat → ℚ)
    (resp : Nat → TransportOutcome) : Outcome × Nat × List ℚ :=
  runControl cfg jitter resp cfg.maxRetries 1

/-- Python truthiness of the `INVERTER_TOKEN` secret: unset or empty is
falsy. -/
def falsyToken : Option String → Bool
  | none => true
  | some s => s == ""

/-- The keys of `URL_CONFIG`. -/
def actions : List String := ["read-status", "set-solar", "set-sbu"]

/-- `call_api` (`src/inverter_control.py` lines 116-229): the token and
action guards (each `sys.exit(1)` before any request), then the control
retry loop for `set-solar`/`set-sbu` or the single-attempt read path for
`read-status`.  The returned `Nat` counts application-level attempts on
the control path and wire requests on the read path; it is 0 whenever a
guard fires. -/
def callApi (token : Option String) (action : String) (cfg : RetryConfig)
    (jitter : Nat → ℚ) (ctrl : Nat → TransportOutcome)
    (readServer : Nat → WireResp) : Outcome × Nat :=
  if falsyToken token then (.exit1 true, 0)
  else if action ∉ actions then (.exit1 true, 0)
  else if action = "set-solar" ∨ action = "set-sbu" then
    match controlCommand cfg jitter ctrl with
    | (o, n, _) => (o, n)
  else readStatus readServer

def BASE_URL : String := "http://android.shinemonitor.com/public/"

def CLIENT_SUFFIX : String :=
  "&source=1&_app_client_=android&_app_id_=com.eybond.smartclient.ess&_app_version_=3.40.1.0"

def PN : String := "Q0029389993714"
def SN : String := "Q002938999371409AD05"
def DEVCODE : String := "2477"
def DEVADDR : String := "5"

/-- The one-shot variant's `read-status` URL (`URL_CONFIG`, lines 46-55)
as a function of the ambient clock `nowMs` at the moment the request is
constructed: the source embeds a hardcoded signature and salt, so the
clock is ignored entirely. -/
def readStatusUrlAt (token : String) (_nowMs : Nat) : String :=
  BASE_URL ++ "?sign=36a7d1425932c48f9426b80eae61b3f4cacd7872&salt=1761121759161" ++
  "&token=" ++ token ++ "&action=queryDeviceCtrlValue&sn=" ++ SN ++ "&pn=" ++ PN ++
  "&devcode=" ++ DEVCODE ++ "&devaddr=" ++ DEVADDR ++
  "&id=los_output_source_priority&i18n=en_US" ++ CLIENT_SUFFIX

/-- Characters of a salt value: everything up to the next `&`. -/
def takeUntilAmp : List Char → List Char
  | [] => []
  | ch :: rest => if ch = '&' then [] else ch :: takeUntilAmp rest

/-- Scan for the first `&salt=` marker and return the characters of its
value. -/
def saltChars : List Char → List Char
  | [] => []
  | ch :: rest =>
    if ('&' :: "salt=".data).isPrefixOf (ch :: rest) then
      takeUntilAmp ((ch :: rest).drop 6)
    else saltChars rest

/-- The value of the `salt` query parameter of a URL. -/
def saltParam (url : String) : String := ⟨saltChars url.data⟩

end IC

namespace App

def PN : String := "Q0029389993714"
def SN : String := "Q002938999371409AD05"
def DEVCODE : String := "2477"
def DEVADDR : String := "5"

/-- Module-level startup of `src/app.py` (lines 141-161): read the env
credentials; if either is missing, log a critical message and leave
`api_client = None` while the process continues (the Flask app and the
scheduler still start, and every scheduled job body is guarded by
`if api_client:`).  Otherwise construct the client (an uncaught
`ValueError` from `__init__` would abort the process) and attempt one
initial login, whose failure is only a warning.  Returns
`(api_client, process exited, API requests made)`. -/
def appStart (username password : Option String) :
    Option Client × Bool × Nat :=
  if falsy username || falsy password then (none, false, 0)
  else
    match clientInit username password (some PN) (some SN) (some DEVCODE) (some DEVADDR) with
    | .error _ => (none, true, 0)
    | .ok c => (some c, false, 1)

end App

/-- A stub server whose every application-level control attempt yields
HTTP 503 with a JSON error body. -/
def stubCtrl503 : Nat → IC.TransportOutcome :=
  fun _ => .resp 503 (.jsonBody 1 "Service Unavailable")

/-- A stub wire-level server that always answers HTTP 503. -/
def stubWire503 : Nat → IC.WireResp :=
  fun _ => .status 503 (.jsonBody 1 "Service Unavailable")

/-- A stub wire-level server that answers HTTP 200 with a non-JSON body. -/
def stubRawBody : Nat → IC.WireResp :=
  fun _ => .status 200 (.rawText "<html>maintenance</html>")

/-- The retry configuration of claim C6: `MAX_RETRIES = 3` with the
default backoff factor 2.0 and cap 60. -/
def cfg3 : IC.RetryConfig :=
  { maxRetries := 3, backoffFactor := 2, maxBackoffSleep := 60 }

/-- A legal pair of jitter draws (`random.uniform(0.5, 1.5)` can return
any value in [0.5, 1.5]): 1.5 for the first attempt, 0.5 afterwards. -/
def jitterCE : Nat → ℚ := fun a => if a = 1 then 3/2 else 1/2

namespace App

/-- Two adjacent string literals in a right-associated append chain fuse
into their concatenation. -/
theorem fuse (a b c : String) (h : a ++ b = c) : ∀ x : String, a ++ (b ++ x) = c ++ x :=
  fun x => by rw [← String.append_assoc, h]

/-- The parameter string with a `val` is the claim's ordered key-value
list, rendered. -/
theorem paramsForSigning_some (c : Client) (salt action v : String) :
    paramsForSigning c salt action (some v) =
      renderKV (specSignedPairs c salt action (some v)) := by
  simp only [paramsForSigning, renderKV, specSignedPairs, SOURCE,
    String.append_assoc, List.cons_append, List.nil_append,
    fuse "action" "=" "action=" rfl,
    fuse "&" "devaddr" "&devaddr" rfl,
    fuse "&devaddr" "=" "&devaddr=" rfl,
    fuse "&" "devcode" "&devcode" rfl,
    fuse "&devcode" "=" "&devcode=" rfl,
    fuse "&" "i18n" "&i18n" rfl,
    fuse "&i18n" "=" "&i18n=" rfl,
    fuse "&i18n=" "en_US" "&i18n=en_US" rfl,
    fuse "&i18n=en_US" "&" "&i18n=en_US&" rfl,
    fuse "&i18n=en_US&" "id" "&i18n=en_US&id" rfl,
    fuse "&i18n=en_US&id" "=" "&i18n=en_US&id=" rfl,
    fuse "&i18n=en_US&id=" "los_output_source_priority"
      "&i18n=en_US&id=los_output_source_priority" rfl,
    fuse "&i18n=en_US&id=los_output_source_priority" "&"
      "&i18n=en_US&id=los_output_source_priority&" rfl,
    fuse "&i18n=en_US&id=los_output_source_priority&" "pn"
      "&i18n=en_US&id=los_output_source_priority&pn" rfl,
    fuse "&i18n=en_US&id=los_output_source_priority&pn" "="
      "&i18n=en_US&id=los_output_source_priority&pn=" rfl,
    fuse "&" "salt" "&salt" rfl,
    fuse "&salt" "=" "&salt=" rfl,
    fuse "&" "sn" "&sn" rfl,
    fuse "&sn" "=" "&sn=" rfl,
    fuse "&" "source" "&source" rfl,
    fuse "&source" "=" "&source=" rfl,
    fuse "&source=" "1" "&source=1" rfl,
    fuse "&source=1" "&" "&source=1&" rfl,
    fuse "&source=1&" "val" "&source=1&val" rfl,
    fuse "&source=1&val" "=" "&source=1&val=" rfl,
    fuse "&source=1" "&val=" "&source=1&val=" rfl]

/-- The parameter string without a `val` is the claim's ordered key-value
list, rendered. -/
theorem paramsForSigning_none (c : Client) (salt action : String) :
    paramsForSigning c salt action none =
      renderKV (specSignedPairs c salt action none) := by
  simp only [paramsForSigning, renderKV, specSignedPairs, SOURCE,
    String.append_assoc, String.append_empty, List.cons_append, List.nil_append,
    fuse "action" "=" "action=" rfl,
    fuse "&" "devaddr" "&devaddr" rfl,
    fuse "&devaddr" "=" "&devaddr=" rfl,
    fuse "&" "devcode" "&devcode" rfl,
    fuse "&devcode" "=" "&devcode=" rfl,
    fuse "&" "i18n" "&i18n" rfl,
    fuse "&i18n" "=" "&i18n=" rfl,
    fuse "&i18n=" "en_US" "&i18n=en_US" rfl,
    fuse "&i18n=en_US" "&" "&i18n=en_US&" rfl,
    fuse "&i18n=en_US&" "id" "&i18n=en_US&id" rfl,
    fuse "&i18n=en_US&id" "=" "&i18n=en_US&id=" rfl,
    fuse "&i18n=en_US&id=" "los_output_source_priority"
      "&i18n=en_US&id=los_output_source_priority" rfl,
    fuse "&i18n=en_US&id=los_output_source_priority" "&"
      "&i18n=en_US&id=los_output_source_priority&" rfl,
    fuse "&i18n=en_US&id=los_output_source_priority&" "pn"
      "&i18n=en_US&id=los_output_source_priority&pn" rfl,
    fuse "&i18n=en_US&id=los_output_source_priority&pn" "="
      "&i18n=en_US&id=los_output_source_priority&pn=" rfl,
    fuse "&" "salt" "&salt" rfl,
    fuse "&salt" "=" "&salt=" rfl,
    fuse "&" "sn" "&sn" rfl,
    fuse "&sn" "=" "&sn=" rfl,
    fuse "&" "source" "&source" rfl,
    fuse "&source" "=" "&source=" rfl,
    show ("&source=" : String) ++ "1" = "&source=1" from rfl]

/-- On the always-token-invalid service, the login guard always refreshes
the session. -/
theorem ensureLogin_alwaysInvalid (st : Session) (h : st.token = none)
    (logins : Nat) :
    ensureLogin alwaysInvalid st logins =
      (⟨some "tok", some "key"⟩, logins + 1, true) := by
  simp [ensureLogin, alwaysInvalid, h]

/-- On a service that answers every command with the token-invalid code
10005 and accepts every login, `_send_signed_command` consumes all of any
amount of fuel: each level of the retry recursion performs exactly one
further login and one further command request. -/
theorem send_alwaysInvalid (fuel : Nat) : ∀ st : Session, st.token = none →
    ∀ logins cmds : Nat,
    send alwaysInvalid fuel st logins cmds =
      (.outOfFuel, ⟨none, some "key"⟩, logins + fuel + 1, cmds + fuel + 1) := by
  induction fuel with
  | zero =>
    intro st h logins cmds
    rw [send, ensureLogin_alwaysInvalid st h]
    rfl
  | succ fuel ih =>
    intro st h logins cmds
    rw [send, ensureLogin_alwaysInvalid st h]
    show send alwaysInvalid fuel ⟨none, some "key"⟩ (logins + 1) (cmds + 1) = _
    rw [ih ⟨none, some "key"⟩ rfl]
    have h1 : logins + 1 + fuel + 1 = logins + (fuel + 1) + 1 := by omega
    have h2 : cmds + 1 + fuel + 1 = cmds + (fuel + 1) + 1 := by omega
    rw [h1, h2]

end App

namespace IC

/-- Invariant of the control retry loop, at any properly aligned point
(`attempt + fuel = MAX_RETRIES + 1`): the loop performs at most `fuel`
more attempts (at least one if any remain), sleeps exactly between
consecutive attempts with `_sleep_with_backoff` of the attempt number,
ends in a normal return or an annotated `sys.exit(1)`, and exhausts all
remaining attempts when every attempt fails. -/
theorem runControl_spec (cfg : RetryConfig) (jitter : Nat → ℚ)
    (resp : Nat → TransportOutcome) :
    ∀ fuel attempt, attempt + fuel = cfg.maxRetries + 1 →
    ∃ o n sl, runControl cfg jitter resp fuel attempt = (o, n, sl)
      ∧ n ≤ fuel
      ∧ (1 ≤ fuel → 1 ≤ n)
      ∧ sl = (List.range (n - 1)).map (fun i => sleepWithBackoff cfg jitter (attempt + i))
      ∧ (o = .success ∨ o = .exit1 true)
      ∧ ((∀ a, attemptSucceeds (resp a) = false) → 1 ≤ fuel →
          o = .exit1 true ∧ n = fuel) := by
  intro fuel
  induction fuel with
  | zero =>
    intro attempt _
    exact ⟨.success, 0, [], rfl, le_refl 0, fun h => absurd h (by omega),
      by simp, Or.inl rfl, fun _ h => absurd h (by omega)⟩
  | succ f ih =>
    intro attempt halign
    by_cases hs : attemptSucceeds (resp attempt) = true
    · refine ⟨.success, 1, [], ?_, by omega, fun _ => le_refl 1, by simp,
        Or.inl rfl, ?_⟩
      · rw [runControl, if_pos hs]
      · intro hall _
        rw [hall attempt] at hs
        exact absurd hs (by simp)
    · by_cases hm : attempt = cfg.maxRetries
      · refine ⟨.exit1 true, 1, [], ?_, by omega, fun _ => le_refl 1, by simp,
          Or.inr rfl, ?_⟩
        · rw [runControl, if_neg hs, if_pos hm]
        · intro _ _
          exact ⟨rfl, by omega⟩
      · have hf1 : 1 ≤ f := by omega
        obtain ⟨o, n, sl, heq, hn, hn1, hsl, ho, hexh⟩ := ih (attempt + 1) (by omega)
        refine ⟨o, n + 1, sleepWithBackoff cfg jitter attempt :: sl, ?_,
          by omega, fun _ => by omega, ?_, ho, ?_⟩
        · rw [runControl, if_neg hs, if_neg hm, heq]
        · obtain ⟨m, rfl⟩ : ∃ m, n = m + 1 := ⟨n - 1, by omega⟩
          rw [hsl, Nat.add_sub_cancel, Nat.add_sub_cancel, List.range_succ_eq_map,
            List.map_cons, List.map_map]
          congr 1
          refine List.map_congr_left fun i _ => ?_
          simp only [Function.comp_apply]
          congr 1
          omega
        · intro hall _
          obtain ⟨ho', hn'⟩ := hexh hall hf1
          exact ⟨ho', by omega⟩

/-- The transport layer makes at most `retries + 1` wire requests. -/
theorem sessionGet_le (server : Nat → WireResp) :
    ∀ retries idx, (sessionGet server retries idx).2 ≤ idx + retries + 1 := by
  intro retries
  induction retries with
  | zero =>
    intro idx
    rw [sessionGet]
    rcases server idx with ⟨c, b⟩ | _ <;> simp
  | succ r ih =>
    intro idx
    rw [sessionGet]
    rcases server idx with ⟨c, b⟩ | _
    · by_cases hc : c ∈ forceList
      · simpa [hc] using le_trans (ih (idx + 1)) (by omega)
      · simp [hc]
    · simpa using le_trans (ih (idx + 1)) (by omega)

/-- A first wire response whose status is not in the forcelist ends the
transport exchange at once: exactly one wire request. -/
theorem sessionGet_first_not_forced (server : Nat → WireResp) (c : Nat)
    (b : Body) (h : server 0 = .status c b) (hc : c ∉ forceList) :
    sessionGet server 2 0 = (.resp c b, 1) := by
  rw [sessionGet, h]
  simp [hc]

/-- The read path in terms of the transport outcome: success exactly when
the final response survives `raise_for_status` with JSON `err == 0`, and
every failure is an annotated `sys.exit(1)`; the wire-request count is
the transport's. -/
theorem readStatus_eq (server : Nat → WireResp) :
    readStatus server =
      ((if readOk (sessionGet server 2 0).1 then Outcome.success else Outcome.exit1 true),
        (sessionGet server 2 0).2) := by
  rw [readStatus]
  rcases hs : sessionGet server 2 0 with ⟨t, n⟩
  rcases t with ⟨c, b⟩ | _
  · by_cases hc : 400 ≤ c ∧ c < 600
    · rcases b with ⟨e, d⟩ | s <;> simp [readOk, hc]
    · rcases b with ⟨e, d⟩ | s
      · by_cases he : e = 0 <;> simp [readOk, hc, he]
      · simp [readOk, hc]
  · simp [readOk]

end IC

/-- A truthy optional string yields a nonempty stored field. -/
theorem falsy_false_getD (o : Option String) (h : App.falsy o = false) :
    o.getD "" ≠ "" := by
  cases o with
  | none => simp [App.falsy] at h
  | some s =>
    simp only [App.falsy, beq_eq_false_iff_ne, ne_eq] at h
    simpa using h

/-- C1: false of the code as claimed — `_send_signed_command` does NOT
retry "exactly once" on the token-invalid error code.  Against a service
whose every response carries `err == 10005` (and whose logins succeed),
the recursion at `src/app.py` line 123 never terminates: for every
amount of fuel the call runs out of fuel after making `fuel + 1` signed
command requests and `fuel + 1` logins, so the number of retries grows
without bound instead of stopping after one. -/
theorem c1_token_invalid_retry_unbounded (fuel : Nat) :
    App.send App.alwaysInvalid fuel ⟨none, none⟩ 0 0 =
      (.outOfFuel, ⟨none, some "key"⟩, fuel + 1, fuel + 1) := by
  simpa using App.send_alwaysInvalid fuel ⟨none, none⟩ rfl 0 0

/-- C4: the signed parameter string is built in exactly the fixed key
order `action, devaddr, devcode, i18n, id, pn, salt, sn, source`, and
the target value `val` is appended if and only if the command is the
mutating `ctrlDevice` dispatched by `set_output_priority`; the read
command dispatched by `get_status` never carries `val`. -/
theorem c4_signed_param_order (c : App.Client) (salt mode : String) :
    (App.paramsForSigning c salt (App.setOutputPriority mode).action
        (App.setOutputPriority mode).extraVal =
      App.renderKV (App.specSignedPairs c salt (App.setOutputPriority mode).action
        (App.setOutputPriority mode).extraVal)
      ∧ (App.specSignedPairs c salt (App.setOutputPriority mode).action
          (App.setOutputPriority mode).extraVal).map Prod.fst =
        ["action", "devaddr", "devcode", "i18n", "id", "pn", "salt", "sn", "source", "val"])
    ∧ (App.paramsForSigning c salt App.getStatus.action App.getStatus.extraVal =
      App.renderKV (App.specSignedPairs c salt App.getStatus.action App.getStatus.extraVal)
      ∧ (App.specSignedPairs c salt App.getStatus.action App.getStatus.extraVal).map Prod.fst =
        ["action", "devaddr", "devcode", "i18n", "id", "pn", "salt", "sn", "source"]) :=
  ⟨⟨App.paramsForSigning_some c salt "ctrlDevice" mode, rfl⟩,
   ⟨App.paramsForSigning_none c salt "queryDeviceCtrlValue", rfl⟩⟩

/-- C7: the signer is deterministic and side-effect free: the hex digest
is a function of the signing key and the signed parameter string alone
(two signing steps with the same key and equal parameter strings produce
the same digest, whatever the session, token, client, clock, action or
value), and the signing step leaves the session state exactly as it
was. -/
theorem c7_signer_pure (h : String → String → String)
    (c c' : App.Client) (st st' : App.Session) (k t t' : String)
    (n n' : Nat) (a a' : String) (v v' : Option String)
    (hp : App.paramsForSigning c (App.mkSalt n) a v =
        App.paramsForSigning c' (App.mkSalt n') a' v') :
    (App.signStep h c st k t n a v).1.sign =
      (App.signStep h c' st' k t' n' a' v').1.sign
    ∧ (App.signStep h c st k t n a v).2 = st := by
  constructor
  · simp only [App.signStep]
    rw [hp]
  · rfl

/-- C7 witness: the determinism and purity theorem applied at a concrete
hash function, client, pair of distinct sessions and tokens. -/
theorem c7_signer_pure_witness :
    (App.signStep (fun k m => k ++ m) ⟨"u", "pw", "p1", "s1", "d1", "a1"⟩
        ⟨none, none⟩ "key" "tokA" 5 "ctrlDevice" (some "1")).1.sign =
      (App.signStep (fun k m => k ++ m) ⟨"u", "pw", "p1", "s1", "d1", "a1"⟩
        ⟨some "x", some "y"⟩ "key" "tokB" 5 "ctrlDevice" (some "1")).1.sign
    ∧ (App.signStep (fun k m => k ++ m) ⟨"u", "pw", "p1", "s1", "d1", "a1"⟩
        ⟨none, none⟩ "key" "tokA" 5 "ctrlDevice" (some "1")).2 = ⟨none, none⟩ :=
  c7_signer_pure (fun k m => k ++ m) ⟨"u", "pw", "p1", "s1", "d1", "a1"⟩
    ⟨"u", "pw", "p1", "s1", "d1", "a1"⟩ ⟨none, none⟩ ⟨some "x", some "y"⟩
    "key" "tokA" "tokB" 5 5 "ctrlDevice" "ctrlDevice" (some "1") (some "1") rfl

/-- C9: `DessMonitorAPI.__init__` raises `ValueError` whenever any of the
six parameters is missing or empty, and every client object it does
construct has all six device-identity and credential fields nonempty. -/
theorem c9_client_init_validates (u p a b d e : Option String) :
    ((App.falsy u || App.falsy p || App.falsy a || App.falsy b ||
        App.falsy d || App.falsy e) = true →
      App.isError (App.clientInit u p a b d e) = true)
    ∧ (∀ cl, App.clientInit u p a b d e = .ok cl →
        cl.username ≠ "" ∧ cl.password ≠ "" ∧ cl.pn ≠ "" ∧ cl.sn ≠ ""
        ∧ cl.devcode ≠ "" ∧ cl.devaddr ≠ "") := by
  constructor
  · intro hf
    simp [App.clientInit, hf, App.isError]
  · intro cl hcl
    by_cases hf : (App.falsy u || App.falsy p || App.falsy a || App.falsy b ||
        App.falsy d || App.falsy e) = true
    · rw [App.clientInit, if_pos hf] at hcl
      exact absurd hcl (by simp)
    · rw [App.clientInit, if_neg hf] at hcl
      simp only [Bool.or_eq_true, not_or, Bool.not_eq_true] at hf
      obtain ⟨⟨⟨⟨⟨hu, hp⟩, ha⟩, hb⟩, hd⟩, he⟩ := hf
      obtain rfl : ({ username := u.getD "",
                      password := p.getD "",
                      pn := a.getD "",
                      sn := b.getD "",
                      devcode := d.getD "",
                      devaddr := e.getD "" } : App.Client) = cl := by
        exact Except.ok.inj hcl
      exact ⟨falsy_false_getD u hu, falsy_false_getD p hp, falsy_false_getD a ha,
        falsy_false_getD b hb, falsy_false_getD d hd, falsy_false_getD e he⟩

/-- C9 witness: the validation theorem applied at a concrete rejected
input (empty username) and at a concrete accepted input. -/
theorem c9_client_init_validates_witness :
    App.isError (App.clientInit (some "") (some "pw") (some "p") (some "s")
      (some "d") (some "a")) = true
    ∧ (("u" : String) ≠ "" ∧ ("pw" : String) ≠ "" ∧ ("p" : String) ≠ ""
       ∧ ("s" : String) ≠ "" ∧ ("d" : String) ≠ "" ∧ ("a" : String) ≠ "") :=
  ⟨(c9_client_init_validates (some "") (some "pw") (some "p") (some "s")
      (some "d") (some "a")).1 rfl,
   (c9_client_init_validates (some "u") (some "pw") (some "p") (some "s")
      (some "d") (some "a")).2 ⟨"u", "pw", "p", "s", "d", "a"⟩ rfl⟩

/-- C10: `set_output_priority` forwards its mode argument unvalidated:
for every string `mode` it dispatches `ctrlDevice` with `val` exactly
equal to `mode` (the signed parameter string is the read string plus
`&val=` followed by `mode` verbatim), and it describes the job as SOLAR
when `mode` is `'1'` and as SBU for every other value, e.g. `'7'`. -/
theorem c10_set_output_priority_forwards (mode : String) (c : App.Client)
    (salt : String) :
    (App.setOutputPriority mode).extraVal = some mode
    ∧ (App.setOutputPriority mode).action = "ctrlDevice"
    ∧ (App.setOutputPriority mode).description =
        (if mode == "1" then "SOLAR" else "SBU")
    ∧ (App.setOutputPriority "7").description = "SBU"
    ∧ App.paramsForSigning c salt "ctrlDevice" (some mode) =
        App.paramsForSigning c salt "ctrlDevice" none ++ "&val=" ++ mode := by
  refine ⟨rfl, rfl, rfl, rfl, ?_⟩
  simp [App.paramsForSigning, String.append_empty, String.append_assoc]

/-- C3: for every mutating invocation, the control loop of `call_api`
makes at most `MAX_RETRIES` application-level attempts; the sleeps
between consecutive attempts are exactly
`min(BACKOFF_FACTOR^(attempt-1) * jitter(attempt), MAX_BACKOFF_SLEEP)` in
order, each bounded by `MAX_BACKOFF_SLEEP`; and when every attempt fails
the invocation ends in `sys.exit(1)` with the error annotation emitted,
after exactly `MAX_RETRIES` attempts. -/
theorem c3_mutating_retry_policy (cfg : IC.RetryConfig) (jitter : Nat → ℚ)
    (resp : Nat → IC.TransportOutcome) (hM : 1 ≤ cfg.maxRetries) :
    ∃ o n sl, IC.controlCommand cfg jitter resp = (o, n, sl)
      ∧ n ≤ cfg.maxRetries
      ∧ sl = (List.range (n - 1)).map
          (fun i => min (cfg.backoffFactor ^ i * jitter (i + 1)) cfg.maxBackoffSleep)
      ∧ (∀ s ∈ sl, s ≤ cfg.maxBackoffSleep)
      ∧ ((∀ a, IC.attemptSucceeds (resp a) = false) →
          o = .exit1 true ∧ n = cfg.maxRetries) := by
  obtain ⟨o, n, sl, heq, hn, hn1, hsl, ho, hexh⟩ :=
    IC.runControl_spec cfg jitter resp cfg.maxRetries 1 (by omega)
  have hsl' : sl = (List.range (n - 1)).map
      (fun i => min (cfg.backoffFactor ^ i * jitter (i + 1)) cfg.maxBackoffSleep) := by
    rw [hsl]
    refine List.map_congr_left fun i _ => ?_
    simp only [IC.sleepWithBackoff]
    rw [Nat.add_comm 1 i, Nat.add_sub_cancel]
  refine ⟨o, n, sl, heq, hn, hsl', ?_, fun hall => hexh hall hM⟩
  intro s hs
  rw [hsl'] at hs
  obtain ⟨i, -, rfl⟩ := List.mem_map.mp hs
  exact min_le_right _ _

/-- C3 witness: the retry-policy theorem applied at the default
configuration (5 attempts), unit jitter, and an always-failing stub
server: the invocation exits 1 after exactly 5 attempts. -/
theorem c3_mutating_retry_policy_witness :
    ∃ o n sl, IC.controlCommand IC.defaultConfig (fun _ => 1) stubCtrl503 = (o, n, sl)
      ∧ o = .exit1 true ∧ n = IC.defaultConfig.maxRetries := by
  obtain ⟨o, n, sl, heq, -, -, -, hexh⟩ :=
    c3_mutating_retry_policy IC.defaultConfig (fun _ => 1) stubCtrl503 (by decide)
  obtain ⟨ho, hn⟩ := hexh (fun a => rfl)
  exact ⟨o, n, sl, heq, ho, hn⟩

/-- C2 counterexample: a read-status invocation against a stub server
that always answers HTTP 503 makes 3 wire-level HTTP request attempts —
`make_session`'s transport `Retry(total=2)` retries the GET twice — not
exactly one; so "exactly one HTTP request attempt ... without a second
attempt" is false at the wire level (the invocation still exits 1). -/
theorem c2_counterexample :
    IC.readStatus stubWire503 = (.exit1 true, 3) ∧ (3 : Nat) ≠ 1 :=
  ⟨rfl, by decide⟩

/-- C2 (amended): a read-status invocation makes exactly one
application-level attempt: at most 3 wire requests ever (one GET plus up
to 2 transport retries), the outcome is success exactly when the single
transport exchange yields an ok JSON `err == 0` response and every
failure is an annotated `sys.exit(1)`; when the first wire response is
not transport-retryable there is exactly one wire request, in
particular an HTTP 200 non-JSON body fails immediately with no second
attempt of any kind. -/
theorem c2_read_single_attempt (server : Nat → IC.WireResp) :
    (IC.readStatus server).2 ≤ 3
    ∧ IC.readStatus server =
        ((if IC.readOk (IC.sessionGet server 2 0).1 then IC.Outcome.success
          else IC.Outcome.exit1 true), (IC.sessionGet server 2 0).2)
    ∧ (∀ c b, server 0 = .status c b → c ∉ IC.forceList →
        IC.readStatus server =
          ((if IC.readOk (.resp c b) then IC.Outcome.success
            else IC.Outcome.exit1 true), 1))
    ∧ (∀ s, server 0 = .status 200 (.rawText s) →
        IC.readStatus server = (.exit1 true, 1)) := by
  have hb := IC.readStatus_eq server
  refine ⟨?_, hb, ?_, ?_⟩
  · rw [hb]
    simpa using IC.sessionGet_le server 2 0
  · intro c b h hc
    rw [hb, IC.sessionGet_first_not_forced server c b h hc]
  · intro s h
    rw [hb, IC.sessionGet_first_not_forced server 200 (.rawText s) h (by decide)]
    simp [IC.readOk]

/-- C2 witness: the amended theorem applied at a stub server answering
HTTP 200 with a non-JSON body: one wire request, annotated exit 1. -/
theorem c2_read_single_attempt_witness :
    IC.readStatus stubRawBody = (.exit1 true, 1) :=
  (c2_read_single_attempt stubRawBody).2.2.2 "<html>maintenance</html>" rfl

/-- C5 counterexample: in the always-running variant a missing
`DESS_USERNAME` indeed causes no API request (no client, 0 requests),
but startup completes with `exited = false` — the process does not exit
with a non-zero status; it keeps serving with `api_client = None`. -/
theorem c5_counterexample :
    App.appStart none (some "pw") = (none, false, 0)
    ∧ (App.appStart none (some "pw")).2.1 = false :=
  ⟨rfl, rfl⟩

/-- C5 (amended): a missing credential or token causes no API request
and no retry in either variant; the one-shot script exits 1 immediately
with an annotation, while the always-running variant constructs no
client and continues running without exiting. -/
theorem c5_missing_credentials (tok : Option String) (u p : Option String)
    (cfg : IC.RetryConfig) (jitter : Nat → ℚ) (ctrl : Nat → IC.TransportOutcome)
    (rs : Nat → IC.WireResp) (action : String)
    (htok : IC.falsyToken tok = true)
    (hup : (App.falsy u || App.falsy p) = true) :
    IC.callApi tok action cfg jitter ctrl rs = (.exit1 true, 0)
    ∧ App.appStart u p = (none, false, 0) := by
  constructor
  · rw [IC.callApi, if_pos htok]
  · rw [App.appStart, if_pos hup]

/-- C5 witness: the amended theorem applied at a missing token and an
empty username. -/
theorem c5_missing_credentials_witness :
    IC.callApi none "read-status" IC.defaultConfig (fun _ => 1) stubCtrl503
      stubWire503 = (.exit1 true, 0)
    ∧ App.appStart (some "") (some "pw") = (none, false, 0) :=
  c5_missing_credentials none (some "") (some "pw") IC.defaultConfig (fun _ => 1)
    stubCtrl503 stubWire503 "read-status" rfl rfl

/-- C6 counterexample: with `MAX_RETRIES = 3` against a stub server that
always answers HTTP 503 and the legal jitter draws 1.5 (first attempt)
and 0.5 (second), the two sleeps are 1.5s then 1.0s — the sleep
intervals are NOT strictly increasing (the attempt count and the
terminal annotated exit are as claimed). -/
theorem c6_counterexample :
    IC.controlCommand cfg3 jitterCE stubCtrl503 = (.exit1 true, 3, [3/2, 1])
    ∧ (1:ℚ)/2 ≤ jitterCE 1 ∧ jitterCE 1 ≤ 3/2
    ∧ (1:ℚ)/2 ≤ jitterCE 2 ∧ jitterCE 2 ≤ 3/2
    ∧ ¬ ((3:ℚ)/2 < 1) := by
  have h1 : IC.sleepWithBackoff cfg3 jitterCE 1 = 3/2 := by
    rw [IC.sleepWithBackoff]
    norm_num [cfg3, jitterCE, min_def]
  have h2 : IC.sleepWithBackoff cfg3 jitterCE 2 = 1 := by
    rw [IC.sleepWithBackoff]
    norm_num [cfg3, jitterCE, min_def]
  refine ⟨?_, by norm_num [jitterCE], by norm_num [jitterCE],
    by norm_num [jitterCE], by norm_num [jitterCE], by norm_num⟩
  calc IC.controlCommand cfg3 jitterCE stubCtrl503
      = (.exit1 true, 3, [IC.sleepWithBackoff cfg3 jitterCE 1,
          IC.sleepWithBackoff cfg3 jitterCE 2]) := rfl
    _ = (.exit1 true, 3, [3/2, 1]) := by rw [h1, h2]

/-- C6 (amended): with `MAX_RETRIES = 3` against an always-503 server the
invocation makes exactly 3 attempts and ends in an annotated
`sys.exit(1)`; the two sleeps are `min(jitter₁, 60)` and
`min(2·jitter₂, 60)`, each bounded by `MAX_BACKOFF_SLEEP = 60`; and they
are strictly increasing whenever the two jitter draws coincide (the
deterministic backoff base doubles) — though, per the counterexample,
unequal draws can reorder them. -/
theorem c6_three_attempts_bounded_sleeps (jitter : Nat → ℚ)
    (hlo1 : 1/2 ≤ jitter 1) (hhi1 : jitter 1 ≤ 3/2)
    (_hlo2 : 1/2 ≤ jitter 2) (hhi2 : jitter 2 ≤ 3/2)
    (heq : jitter 1 = jitter 2) :
    IC.controlCommand cfg3 jitter stubCtrl503 =
      (.exit1 true, 3, [min (jitter 1) 60, min (2 * jitter 2) 60])
    ∧ min (jitter 1) 60 ≤ 60 ∧ min (2 * jitter 2) 60 ≤ 60
    ∧ min (jitter 1) 60 < min (2 * jitter 2) 60 := by
  have e1 : IC.sleepWithBackoff cfg3 jitter 1 = min (jitter 1) 60 := by
    rw [IC.sleepWithBackoff]
    norm_num [cfg3]
  have e2 : IC.sleepWithBackoff cfg3 jitter 2 = min (2 * jitter 2) 60 := by
    rw [IC.sleepWithBackoff]
    norm_num [cfg3]
  refine ⟨?_, min_le_right _ _, min_le_right _ _, ?_⟩
  · calc IC.controlCommand cfg3 jitter stubCtrl503
        = (.exit1 true, 3, [IC.sleepWithBackoff cfg3 jitter 1,
            IC.sleepWithBackoff cfg3 jitter 2]) := rfl
      _ = (.exit1 true, 3, [min (jitter 1) 60, min (2 * jitter 2) 60]) := by
          rw [e1, e2]
  · have hm1 : min (jitter 1) 60 = jitter 1 := min_eq_left (by linarith)
    have hm2 : min (2 * jitter 2) 60 = 2 * jitter 2 := min_eq_left (by linarith)
    rw [hm1, hm2, ← heq]
    linarith

/-- C6 witness: the amended theorem applied at the constant jitter 1:
exactly 3 attempts, sleeps 1s then 2s (strictly increasing, bounded by
60), annotated non-zero exit. -/
theorem c6_three_attempts_bounded_sleeps_witness :
    IC.controlCommand cfg3 (fun _ => 1) stubCtrl503 =
      (.exit1 true, 3, [min (1:ℚ) 60, min (2 * 1) 60])
    ∧ min (1:ℚ) 60 ≤ 60 ∧ min (2 * (1:ℚ)) 60 ≤ 60
    ∧ min (1:ℚ) 60 < min (2 * (1:ℚ)) 60 :=
  c6_three_attempts_bounded_sleeps (fun _ => 1) (by norm_num) (by norm_num)
    (by norm_num) (by norm_num) rfl

/-- C8 counterexample: the one-shot variant's dispatched request is the
same URL at two different construction times — its salt is the hardcoded
literal `1761121759161`, not the current time in milliseconds, so two
requests constructed at different millisecond timestamps reuse the same
stale fixed salt. -/
theorem c8_counterexample :
    IC.readStatusUrlAt "TOK" 1000 = IC.readStatusUrlAt "TOK" 2000
    ∧ IC.saltParam (IC.readStatusUrlAt "TOK" 1000) = "1761121759161"
    ∧ (1000 : Nat) ≠ 2000 := by
  refine ⟨rfl, by decide, by decide⟩

/-- C8 (amended): in the always-running variant every signed request's
salt is exactly the clock value (in ms) at the moment the request is
constructed — fresh per request, and two requests constructed at
different millisecond timestamps carry distinct salt values; the
one-shot variant, by contrast, ignores the clock: its URL (salt
included) is identical at any two construction times. -/
theorem c8_salt_freshness (h : String → String → String) (c : App.Client)
    (st : App.Session) (k t : String) (a : String) (v : Option String)
    (n n' : Nat) (hne : n ≠ n') :
    (App.signStep h c st k t n a v).1.saltMs = n
    ∧ (App.signStep h c st k t n a v).1.salt = App.mkSalt n
    ∧ (App.signStep h c st k t n a v).1.saltMs ≠
        (App.signStep h c st k t n' a v).1.saltMs
    ∧ IC.readStatusUrlAt t n = IC.readStatusUrlAt t n' :=
  ⟨rfl, rfl, hne, rfl⟩

/-- C8 witness: the amended theorem applied at clock values 1000 and
2000 ms for a concrete client and session. -/
theorem c8_salt_freshness_witness :
    (App.signStep (fun k m => k ++ m) ⟨"u", "p", "pn", "sn", "dc", "da"⟩
        ⟨none, none⟩ "key" "tok" 1000 "queryDeviceCtrlValue" none).1.saltMs = 1000
    ∧ (App.signStep (fun k m => k ++ m) ⟨"u", "p", "pn", "sn", "dc", "da"⟩
        ⟨none, none⟩ "key" "tok" 1000 "queryDeviceCtrlValue" none).1.salt =
      App.mkSalt 1000
    ∧ (App.signStep (fun k m => k ++ m) ⟨"u", "p", "pn", "sn", "dc", "da"⟩
        ⟨none, none⟩ "key" "tok" 1000 "queryDeviceCtrlValue" none).1.saltMs ≠
      (App.signStep (fun k m => k ++ m) ⟨"u", "p", "pn", "sn", "dc", "da"⟩
        ⟨none, none⟩ "key" "tok" 2000 "queryDeviceCtrlValue" none).1.saltMs
    ∧ IC.readStatusUrlAt "tok" 1000 = IC.readStatusUrlAt "tok" 2000 :=
  c8_salt_freshness (fun k m => k ++ m) ⟨"u", "p", "pn", "sn", "dc", "da"⟩
    ⟨none, none⟩ "key" "tok" "queryDeviceCtrlValue" none 1000 2000 (by decide)
